import Mathlib

/-!
Shallow embedding of the YewChat client-side synchronization engine
(`src/components/chat.rs`) together with the slice of `serde_json`
semantics the component relies on.

Modelling conventions:
* JSON values are the inductive `Json`; `Json.parse` is a recursive-descent
  parser over the character list with explicit fuel (JSON numbers are
  modelled as integers and `\u` escapes are not modelled — the chat wire
  protocol uses neither).
* `serde_json::from_str::<T>` is modelled as `Json.parse` followed by a
  per-type decoder (`WebSocketMessage.fromJson`, `MessageData.fromJson`)
  mirroring the derived `Deserialize` impls: required fields error when
  absent, `Option` fields decode absent/`null` to `none`, unknown fields
  are ignored, enum `MsgTypes` (`rename_all = "lowercase"`) decodes from
  its lowercase string form.
* A Rust `panic!` (from `.unwrap()`) is the `Except.error Panic.unwrapFailed`
  outcome of a step.
* Outbound traffic is kept as structured `WebSocketMessage` values: the
  source serializes each envelope with `serde_json::to_string` (infallible
  for this type) immediately before `try_send`, so the envelope content is
  exactly what reaches the transport.
* The DOM input element referenced by `chat_input : NodeRef` is embedded as
  `chat_input : Option String` in the state: `none` models a failed
  `cast::<HtmlInputElement>()`, `some v` models an input element holding
  text `v`.
* The ignored result of `try_send` is the unused `sendOk` argument of
  `Chat.update`, so that claims quantifying over transport health are
  statable.
-/

namespace YewChat

/-- JSON values, as produced by `serde_json` parsing. Numbers are restricted
to integers (the chat protocol carries no numbers at all). Object fields
keep their textual order. -/
inductive Json where
  | null : Json
  | bool (b : Bool) : Json
  | num (n : Int) : Json
  | str (s : String) : Json
  | arr (elems : List Json) : Json
  | obj (fields : List (String × Json)) : Json

/-- Left brace character, written via its code point. -/
def lbrace : Char := Char.ofNat 123

/-- Right brace character, written via its code point. -/
def rbrace : Char := Char.ofNat 125

/-- Skip JSON whitespace. -/
def skipWs : List Char → List Char
  | [] => []
  | c :: cs =>
    if c = ' ' || c = '\n' || c = '\t' || c = '\r' then skipWs cs else c :: cs

/-- Decode a single-character JSON escape (after the backslash); `\u` escapes
are not modelled. -/
def escChar (e : Char) : Option Char :=
  if e = '"' then some '"'
  else if e = '\\' then some '\\'
  else if e = '/' then some '/'
  else if e = 'n' then some '\n'
  else if e = 't' then some '\t'
  else if e = 'r' then some '\r'
  else if e = 'b' then some (Char.ofNat 8)
  else if e = 'f' then some (Char.ofNat 12)
  else none

/-- Parse the body of a JSON string (the opening quote already consumed),
returning the decoded characters and the remaining input. -/
def parseStringChars : List Char → Option (List Char × List Char)
  | [] => none
  | '"' :: cs => some ([], cs)
  | '\\' :: [] => none
  | '\\' :: e :: cs =>
    match escChar e, parseStringChars cs with
    | some d, some (acc, rem) => some (d :: acc, rem)
    | _, _ => none
  | c :: cs =>
    match parseStringChars cs with
    | some (acc, rem) => some (c :: acc, rem)
    | none => none

/-- Split a leading run of decimal digits off a character list. -/
def takeDigits : List Char → List Char × List Char
  | [] => ([], [])
  | c :: cs =>
    if c.isDigit then
      let p := takeDigits cs
      (c :: p.1, p.2)
    else ([], c :: cs)

/-- Decimal digits to a natural number. -/
def digitsToNat (ds : List Char) : Nat :=
  ds.foldl (fun acc c => acc * 10 + (c.toNat - 48)) 0

/-- Parse a JSON integer (optional minus sign then digits). -/
def parseNum (cs : List Char) : Option (Json × List Char) :=
  match cs with
  | '-' :: rest =>
    let p := takeDigits rest
    if p.1 = [] then none else some (Json.num (-(digitsToNat p.1 : Int)), p.2)
  | _ =>
    let p := takeDigits cs
    if p.1 = [] then none else some (Json.num (digitsToNat p.1), p.2)

/-- Parser modes: a single value, the element list of an array (after `[`
and at least one element), or the field list of an object. -/
inductive PMode where
  | val : PMode
  | elems : PMode
  | fields : PMode
deriving Repr, DecidableEq

/-- Fuel-indexed recursive-descent JSON parser. In `PMode.elems` the result
is always a `Json.arr`, in `PMode.fields` always a `Json.obj`. -/
def parseF : Nat → PMode → List Char → Option (Json × List Char)
  | 0, _, _ => none
  | Nat.succ fuel, PMode.val, cs =>
    match skipWs cs with
    | [] => none
    | c :: rest =>
      if c = '"' then
        match parseStringChars rest with
        | some (acc, rem) => some (Json.str (String.mk acc), rem)
        | none => none
      else if c = '[' then
        match skipWs rest with
        | ']' :: rem => some (Json.arr [], rem)
        | rest2 => parseF fuel PMode.elems rest2
      else if c = lbrace then
        match skipWs rest with
        | [] => none
        | d :: rem =>
          if d = rbrace then some (Json.obj [], rem)
          else parseF fuel PMode.fields (d :: rem)
      else
        match c :: rest with
        | 'n' :: 'u' :: 'l' :: 'l' :: rem => some (Json.null, rem)
        | 't' :: 'r' :: 'u' :: 'e' :: rem => some (Json.bool true, rem)
        | 'f' :: 'a' :: 'l' :: 's' :: 'e' :: rem => some (Json.bool false, rem)
        | other => parseNum other
  | Nat.succ fuel, PMode.elems, cs =>
    match parseF fuel PMode.val cs with
    | none => none
    | some (v, rem) =>
      match skipWs rem with
      | [] => none
      | c :: rest =>
        if c = ',' then
          match parseF fuel PMode.elems rest with
          | some (Json.arr vs, rem2) => some (Json.arr (v :: vs), rem2)
          | _ => none
        else if c = ']' then some (Json.arr [v], rest)
        else none
  | Nat.succ fuel, PMode.fields, cs =>
    match skipWs cs with
    | '"' :: rest =>
      match parseStringChars rest with
      | none => none
      | some (key, rem) =>
        match skipWs rem with
        | ':' :: rest2 =>
          match parseF fuel PMode.val rest2 with
          | none => none
          | some (v, rem2) =>
            match skipWs rem2 with
            | [] => none
            | c :: rest3 =>
              if c = ',' then
                match parseF fuel PMode.fields rest3 with
                | some (Json.obj fs, rem3) =>
                  some (Json.obj ((String.mk key, v) :: fs), rem3)
                | _ => none
              else if c = rbrace then some (Json.obj [(String.mk key, v)], rest3)
              else none
        | _ => none
    | _ => none

/-- Parse a complete JSON document: one value followed only by whitespace.
Models `serde_json`'s syntactic layer. -/
def Json.parse (s : String) : Option Json :=
  match parseF (2 * s.data.length + 8) PMode.val s.data with
  | some (j, rem) => if skipWs rem = [] then some j else none
  | none => none

/-- First binding of `key` in an object's field list (the wire messages of
this protocol never carry duplicate keys). -/
def Json.lookup (fields : List (String × Json)) (key : String) : Option Json :=
  match fields with
  | [] => none
  | (k, v) :: rest => if k = key then some v else Json.lookup rest key

/-- `MsgTypes` from `chat.rs`: the three envelope kinds, serialized in
lowercase (`#[serde(rename_all = "lowercase")]`). -/
inductive MsgTypes where
  | Users : MsgTypes
  | Register : MsgTypes
  | Message : MsgTypes
deriving Repr, DecidableEq

/-- Decode a `MsgTypes` tag from its lowercase wire string; any other tag is
a deserialization error. -/
def MsgTypes.fromString (s : String) : Option MsgTypes :=
  if s = "users" then some MsgTypes.Users
  else if s = "register" then some MsgTypes.Register
  else if s = "message" then some MsgTypes.Message
  else none

/-- `WebSocketMessage` from `chat.rs` (`rename_all = "camelCase"`):
`message_type` ↦ key `messageType`, `data_array` ↦ key `dataArray`,
`data` ↦ key `data`. -/
structure WebSocketMessage where
  message_type : MsgTypes
  data_array : Option (List String)
  data : Option String
deriving Repr, DecidableEq

/-- Decode a JSON array as `Vec<String>`: every element must be a string. -/
def decodeStrings : List Json → Option (List String)
  | [] => some []
  | Json.str s :: rest => (decodeStrings rest).map (fun xs => s :: xs)
  | _ => none

/-- serde decoding of an `Option<Vec<String>>` field: absent or `null`
becomes `none`; a string array becomes `some`; anything else errors. -/
def decodeStringArrayField : Option Json → Option (Option (List String))
  | none => some none
  | some Json.null => some none
  | some (Json.arr xs) => (decodeStrings xs).map some
  | some _ => none

/-- serde decoding of an `Option<String>` field: absent or `null` becomes
`none`; a string becomes `some`; anything else errors. -/
def decodeStringField : Option Json → Option (Option String)
  | none => some none
  | some Json.null => some none
  | some (Json.str s) => some (some s)
  | some _ => none

/-- Derived `Deserialize` for `WebSocketMessage`: an object with required
tag field `messageType` and optional `dataArray` / `data`; unknown extra
fields are ignored (serde default). -/
def WebSocketMessage.fromJson : Json → Option WebSocketMessage
  | Json.obj fields => do
    let mtJ ← Json.lookup fields "messageType"
    let mtS ← match mtJ with | Json.str s => some s | _ => none
    let mt ← MsgTypes.fromString mtS
    let da ← decodeStringArrayField (Json.lookup fields "dataArray")
    let d ← decodeStringField (Json.lookup fields "data")
    some ⟨mt, da, d⟩
  | _ => none

/-- `MessageData` from `chat.rs`: the nested `{from, message}` record carried
inside a `message` envelope's `data` string. The source field `from` is a
Lean keyword and is embedded as `from_`. -/
structure MessageData where
  from_ : String
  message : String
deriving Repr, DecidableEq

/-- Derived `Deserialize` for `MessageData`: both fields required strings;
unknown extra fields ignored. -/
def MessageData.fromJson : Json → Option MessageData
  | Json.obj fields => do
    let fJ ← Json.lookup fields "from"
    let fS ← match fJ with | Json.str s => some s | _ => none
    let mJ ← Json.lookup fields "message"
    let mS ← match mJ with | Json.str s => some s | _ => none
    some ⟨fS, mS⟩
  | _ => none

/-- `UserProfile` from `chat.rs`: a roster entry. -/
structure UserProfile where
  name : String
  avatar : String
deriving Repr, DecidableEq

/-- The state of the `Chat` component (`chat.rs`), minus the two external
handles (`_producer` event-bus bridge and `wss` websocket service), with the
DOM input element behind `chat_input : NodeRef` embedded as its current
value (`none` when the cast to `HtmlInputElement` fails). -/
structure Chat where
  dark_mode : Bool
  users : List UserProfile
  chat_input : Option String
  messages : List MessageData
deriving Repr, DecidableEq

/-- The avatar URL template applied to a username
(`format!("https://avatars.dicebear.com/api/adventurer-neutral/{}.svg", u)`). -/
def avatarUrl (u : String) : String :=
  "https://avatars.dicebear.com/api/adventurer-neutral/" ++ u ++ ".svg"

/-- The roster entry built for one name in a `users` envelope. -/
def mkUserProfile (u : String) : UserProfile :=
  { name := u, avatar := avatarUrl u }

/-- `Chat::toggle_dark_mode`: flip the `dark_mode` flag. -/
def Chat.toggle_dark_mode (st : Chat) : Chat :=
  { st with dark_mode := !st.dark_mode }

/-- Outcome of a Rust `.unwrap()` on a `None`/`Err`: the component panics. -/
inductive Panic where
  | unwrapFailed : Panic
deriving Repr, DecidableEq

/-- `serde_json::from_str::<MessageData>` on the nested payload string. -/
def parseMessageData (s : String) : Option MessageData :=
  (Json.parse s).bind MessageData.fromJson

/-- `serde_json::from_str::<WebSocketMessage>` on an inbound text frame. -/
def decodeWS (s : String) : Option WebSocketMessage :=
  (Json.parse s).bind WebSocketMessage.fromJson

/-- The `match msg.message_type` body of the `Msg::HandleMsg` arm of
`Chat::update` (chat.rs lines 102–127), applied to an already-decoded
envelope. Returns the new state and the re-render flag, or the panic raised
by `msg.data.unwrap()` / `serde_json::from_str(..).unwrap()`. -/
def handleEnvelope (st : Chat) (msg : WebSocketMessage) :
    Except Panic (Chat × Bool) :=
  match msg.message_type with
  | MsgTypes.Users =>
    let users_from_message := msg.data_array.getD []
    Except.ok ({ st with users := users_from_message.map mkUserProfile }, true)
  | MsgTypes.Message =>
    match msg.data with
    | none => Except.error Panic.unwrapFailed
    | some s =>
      match parseMessageData s with
      | none => Except.error Panic.unwrapFailed
      | some md => Except.ok ({ st with messages := st.messages ++ [md] }, true)
  | MsgTypes.Register => Except.ok (st, false)

/-- The full `Msg::HandleMsg(s)` arm: `serde_json::from_str(&s).unwrap()`
(chat.rs line 101) then the dispatch on the envelope kind. -/
def handleRaw (st : Chat) (s : String) : Except Panic (Chat × Bool) :=
  match decodeWS s with
  | none => Except.error Panic.unwrapFailed
  | some msg => handleEnvelope st msg

/-- The component's message type `Msg` from `chat.rs`. -/
inductive Msg where
  | HandleMsg (s : String) : Msg
  | SubmitMessage : Msg
  | ToggleDarkMode : Msg

/-- The register envelope built in `Chat::create`. -/
def registerEnvelope (username : String) : WebSocketMessage :=
  { message_type := MsgTypes.Register, data_array := none, data := some username }

/-- `Chat::create`: returns the initial component state and the envelopes
handed to `try_send` during creation (exactly the one register envelope; the
`if let Ok(_)` around the send only logs). The fresh `NodeRef::default()` is
not yet attached to a DOM node, so `chat_input` starts as `none`. -/
def Chat.create (username : String) : Chat × List WebSocketMessage :=
  ({ dark_mode := false, users := [], chat_input := none, messages := [] },
   [registerEnvelope username])

/-- `Chat::update`. `sendOk` is the (ignored, only logged) result of any
`try_send` performed in the step. Returns the new state, the envelopes
handed to `try_send` during the step, and the re-render flag — or the
panic escaping from the `Msg::HandleMsg` arm. -/
def Chat.update (st : Chat) (sendOk : Bool) :
    Msg → Except Panic (Chat × List WebSocketMessage × Bool)
  | Msg.ToggleDarkMode => Except.ok (st.toggle_dark_mode, [], true)
  | Msg.HandleMsg s =>
    match handleRaw st s with
    | Except.error e => Except.error e
    | Except.ok (st2, render) => Except.ok (st2, [], render)
  | Msg.SubmitMessage =>
    match st.chat_input with
    | some v =>
      Except.ok ({ st with chat_input := some "" },
        [{ message_type := MsgTypes.Message, data_array := none, data := some v }],
        false)
    | none => Except.ok (st, [], false)

/-- Process a sequence of already-decoded inbound envelopes in order,
stopping at the first panic. -/
def runEnvelopes : Chat → List WebSocketMessage → Except Panic Chat
  | st, [] => Except.ok st
  | st, m :: rest =>
    match handleEnvelope st m with
    | Except.error e => Except.error e
    | Except.ok p => runEnvelopes p.1 rest

/-- A concrete freshly-created component state, used by the witnesses. -/
def chat0 : Chat :=
  { dark_mode := false, users := [], chat_input := none, messages := [] }

/-- A concrete two-envelope `users` sequence, used by the C1 witness. -/
def msgsEx : List WebSocketMessage :=
  [{ message_type := MsgTypes.Users, data_array := some ["alice"], data := none },
   { message_type := MsgTypes.Users, data_array := some ["bob", "carol"], data := none }]

/-- A concrete `message` envelope with a valid nested record, used by the
C4 witness. -/
def msg4 : WebSocketMessage :=
  { message_type := MsgTypes.Message, data_array := none,
    data := some "\x7b\"from\":\"bob\",\"message\":\"hi\"\x7d" }

/-- A component state whose input element holds the text `hello`. -/
def ex6 : Chat :=
  { dark_mode := false, users := [], chat_input := some "hello", messages := [] }

/-- A component state whose input element holds the empty string. -/
def ex7 : Chat :=
  { dark_mode := false, users := [], chat_input := some "", messages := [] }

/-- Claim C1: after processing a nonempty sequence of inbound `users`
envelopes, the roster equals exactly the last envelope's name list, in
order, one `UserProfile` per listed name (duplicates kept), with nothing
accumulated from earlier envelopes; all other state fields are untouched. -/
theorem c1_roster_is_latest_users_list (st : Chat) (msgs : List WebSocketMessage)
    (hall : ∀ m ∈ msgs, m.message_type = MsgTypes.Users) (hne : msgs ≠ []) :
    runEnvelopes st msgs =
      Except.ok
        { st with users := ((msgs.getLast hne).data_array.getD []).map mkUserProfile } := by
  induction msgs generalizing st with
  | nil => exact absurd rfl hne
  | cons m rest ih =>
    obtain ⟨mt, da, d⟩ := m
    have hm : mt = MsgTypes.Users := hall ⟨mt, da, d⟩ (List.mem_cons_self _ _)
    subst hm
    cases rest with
    | nil => rfl
    | cons m2 rest2 =>
      have hall2 : ∀ x ∈ m2 :: rest2, x.message_type = MsgTypes.Users := fun x hx =>
        hall x (List.mem_cons_of_mem _ hx)
      have h2 := ih { st with users := (da.getD []).map mkUserProfile }
        hall2 (List.cons_ne_nil _ _)
      rw [List.getLast_cons]
      exact h2

/-- Witness for C1 at a concrete two-envelope sequence: the roster is the
second envelope's list, the first envelope's entry is gone. -/
theorem c1_witness :
    (∀ m ∈ msgsEx, m.message_type = MsgTypes.Users) ∧ msgsEx ≠ [] ∧
    runEnvelopes chat0 msgsEx =
      Except.ok { chat0 with users := [mkUserProfile "bob", mkUserProfile "carol"] } :=
  ⟨by decide, by decide,
    (c1_roster_is_latest_users_list chat0 msgsEx (by decide) (by decide)).trans rfl⟩

/-- Claim C2 (code evaluation): on a `message` envelope whose `data` is
absent or not parsable as the nested record, the `Msg::HandleMsg` arm
panics (`.unwrap()`), contradicting the spec policy of dropping the
envelope without crashing; the message log is never extended. -/
theorem c2_bad_message_payload_panics (st : Chat) (msg : WebSocketMessage)
    (hk : msg.message_type = MsgTypes.Message)
    (hbad : msg.data.bind parseMessageData = none) :
    handleEnvelope st msg = Except.error Panic.unwrapFailed := by
  obtain ⟨mt, da, d⟩ := msg
  have hm : mt = MsgTypes.Message := hk
  subst hm
  cases d with
  | none => rfl
  | some s =>
    have hp : parseMessageData s = none := by simpa using hbad
    simp [handleEnvelope, hp]

/-- Witness for C2 at a concrete unparsable payload. -/
theorem c2_witness :
    (WebSocketMessage.mk MsgTypes.Message none (some "nope")).data.bind parseMessageData
      = none ∧
    handleEnvelope chat0 (WebSocketMessage.mk MsgTypes.Message none (some "nope")) =
      Except.error Panic.unwrapFailed :=
  ⟨by decide,
    c2_bad_message_payload_panics chat0 (WebSocketMessage.mk MsgTypes.Message none (some "nope"))
      rfl (by decide)⟩

/-- Claim C3 (code evaluation): on an inbound text that does not decode to a
`WebSocketMessage` (malformed JSON or unknown `messageType` tag), the
`Msg::HandleMsg` arm panics at `serde_json::from_str(&s).unwrap()`,
contradicting the spec policy of dropping the frame without crashing. -/
theorem c3_undecodable_frame_panics (st : Chat) (s : String)
    (hbad : decodeWS s = none) :
    handleRaw st s = Except.error Panic.unwrapFailed := by
  simp [handleRaw, hbad]

/-- Witness for C3 at a concrete unknown-tag frame. -/
theorem c3_witness :
    decodeWS "\x7b\"messageType\":\"typing\",\"data\":\"x\"\x7d" = none ∧
    handleRaw chat0 "\x7b\"messageType\":\"typing\",\"data\":\"x\"\x7d" =
      Except.error Panic.unwrapFailed :=
  ⟨by decide,
    c3_undecodable_frame_panics chat0 "\x7b\"messageType\":\"typing\",\"data\":\"x\"\x7d"
      (by decide)⟩

/-- Claim C4: a `message` envelope with a valid nested record appends
exactly the decoded record to the message log; the log grows by one and its
previous entries are unchanged in place and order. -/
theorem c4_valid_message_appends (st : Chat) (msg : WebSocketMessage) (md : MessageData)
    (hk : msg.message_type = MsgTypes.Message)
    (hok : msg.data.bind parseMessageData = some md) :
    handleEnvelope st msg =
      Except.ok ({ st with messages := st.messages ++ [md] }, true) ∧
    (st.messages ++ [md]).length = st.messages.length + 1 ∧
    (st.messages ++ [md]).take st.messages.length = st.messages := by
  obtain ⟨mt, da, d⟩ := msg
  have hm : mt = MsgTypes.Message := hk
  subst hm
  cases d with
  | none => simp at hok
  | some s =>
    have hp : parseMessageData s = some md := by simpa using hok
    exact ⟨by simp [handleEnvelope, hp], by simp, by simp⟩

/-- Witness for C4 at a concrete valid nested record. -/
theorem c4_witness :
    msg4.data.bind parseMessageData = some (MessageData.mk "bob" "hi") ∧
    handleEnvelope chat0 msg4 =
      Except.ok ({ chat0 with messages := chat0.messages ++ [MessageData.mk "bob" "hi"] },
        true) :=
  ⟨by decide,
    (c4_valid_message_appends chat0 msg4 (MessageData.mk "bob" "hi") rfl (by decide)).1⟩

/-- Claim C5: creating the engine with local username `u` emits exactly one
outbound envelope, the register envelope with `data = u` and
`dataArray = null`, before any other output. -/
theorem c5_create_sends_single_register (u : String) :
    (Chat.create u).2 =
      [{ message_type := MsgTypes.Register, data_array := none, data := some u }] := rfl

/-- Claim C6: submitting a non-empty input text `t` emits exactly one
outbound `message` envelope with `data = t`, does not touch the message
log (or any other state field), and clears the input regardless of the
transport send result. -/
theorem c6_submit_nonempty_sends_one (st : Chat) (t : String) (sendOk : Bool)
    (hne : t ≠ "") (hin : st.chat_input = some t) :
    Chat.update st sendOk Msg.SubmitMessage =
      Except.ok ({ st with chat_input := some "" },
        [{ message_type := MsgTypes.Message, data_array := none, data := some t }],
        false) := by
  simp [Chat.update, hin]

/-- Witness for C6 at input text `hello` with a failing transport send. -/
theorem c6_witness :
    ("hello" : String) ≠ "" ∧ ex6.chat_input = some "hello" ∧
    Chat.update ex6 false Msg.SubmitMessage =
      Except.ok ({ ex6 with chat_input := some "" },
        [{ message_type := MsgTypes.Message, data_array := none, data := some "hello" }],
        false) :=
  ⟨by decide, rfl, c6_submit_nonempty_sends_one ex6 "hello" false (by decide) rfl⟩

/-- Counterexample to claim C7: with the input element holding the empty
string, `Msg::SubmitMessage` is not a no-op — the engine still hands one
`message` envelope (with empty `data`) to the transport, so the outbound
send count changes. -/
theorem c7_counterexample :
    Chat.update ex7 true Msg.SubmitMessage =
      Except.ok (ex7,
        [{ message_type := MsgTypes.Message, data_array := none, data := some "" }],
        false) ∧
    ([{ message_type := MsgTypes.Message, data_array := none, data := some "" }] :
      List WebSocketMessage) ≠ [] :=
  ⟨rfl, by decide⟩

/-- Claim C7 as amended: submitting with an empty input value leaves the
message log and roster unchanged and triggers no re-render, but the engine
still sends exactly one outbound `message` envelope with empty `data` and
clears the input (it does not special-case empty input). -/
theorem c7_amended_empty_submit_still_sends (st : Chat) (sendOk : Bool)
    (hin : st.chat_input = some "") :
    Chat.update st sendOk Msg.SubmitMessage =
      Except.ok ({ st with chat_input := some "" },
        [{ message_type := MsgTypes.Message, data_array := none, data := some "" }],
        false) := by
  simp [Chat.update, hin]

/-- Witness for the amended C7 at a concrete state with empty input. -/
theorem c7_witness :
    ex7.chat_input = some "" ∧
    Chat.update ex7 false Msg.SubmitMessage =
      Except.ok ({ ex7 with chat_input := some "" },
        [{ message_type := MsgTypes.Message, data_array := none, data := some "" }],
        false) :=
  ⟨rfl, c7_amended_empty_submit_still_sends ex7 false rfl⟩

/-- Claim C8: `ToggleDisplayMode` flips `dark_mode` to its other value, and
applying it twice returns the whole state to its original value. -/
theorem c8_toggle_involution (st : Chat) (sendOk1 sendOk2 : Bool) :
    ∃ st1,
      Chat.update st sendOk1 Msg.ToggleDarkMode = Except.ok (st1, [], true) ∧
      st1.dark_mode = !st.dark_mode ∧
      Chat.update st1 sendOk2 Msg.ToggleDarkMode = Except.ok (st, [], true) := by
  refine ⟨st.toggle_dark_mode, rfl, rfl, ?_⟩
  have h : st.toggle_dark_mode.toggle_dark_mode = st := by
    cases st
    simp [Chat.toggle_dark_mode]
  show Except.ok (st.toggle_dark_mode.toggle_dark_mode, [], true) = _
  rw [h]

/-- Claim C9: an inbound `register` envelope hits the fallback arm: no state
field changes and no re-render is requested. -/
theorem c9_register_inbound_noop (st : Chat) (msg : WebSocketMessage)
    (hk : msg.message_type = MsgTypes.Register) :
    handleEnvelope st msg = Except.ok (st, false) := by
  obtain ⟨mt, da, d⟩ := msg
  have hm : mt = MsgTypes.Register := hk
  subst hm
  rfl

/-- Witness for C9 at a concrete inbound register envelope. -/
theorem c9_witness :
    (registerEnvelope "alice").message_type = MsgTypes.Register ∧
    handleEnvelope chat0 (registerEnvelope "alice") = Except.ok (chat0, false) :=
  ⟨rfl, c9_register_inbound_noop chat0 (registerEnvelope "alice") rfl⟩

/-- Claim C10: a `users` envelope whose `dataArray` is absent or `null`
decodes without error (serde treats the `Option` field as `none`) and
`unwrap_or_default()` replaces the roster with the empty list; message log
and display mode are untouched. -/
theorem c10_users_missing_array_empties_roster (st : Chat) (s : String)
    (msg : WebSocketMessage) (hdec : decodeWS s = some msg)
    (hk : msg.message_type = MsgTypes.Users) (hda : msg.data_array = none) :
    handleRaw st s = Except.ok ({ st with users := [] }, true) := by
  obtain ⟨mt, da, d⟩ := msg
  have hm : mt = MsgTypes.Users := hk
  have hd : da = none := hda
  subst hm
  subst hd
  simp [handleRaw, hdec, handleEnvelope]

/-- Witness for C10 at a concrete `users` frame with no `dataArray` key:
it decodes successfully and empties the roster. -/
theorem c10_witness :
    decodeWS "\x7b\"messageType\":\"users\"\x7d" =
      some { message_type := MsgTypes.Users, data_array := none, data := none } ∧
    handleRaw chat0 "\x7b\"messageType\":\"users\"\x7d" =
      Except.ok ({ chat0 with users := [] }, true) :=
  ⟨by decide,
    c10_users_missing_array_empties_roster chat0 "\x7b\"messageType\":\"users\"\x7d"
      { message_type := MsgTypes.Users, data_array := none, data := none }
      (by decide) rfl rfl⟩

end YewChat
